import Mathlib

/-!
Verification development for the Factory Frenzy leaderboard application
(single source file `src/app.py`).

The development embeds the data-normalization and ranking pipeline of the
application: column validation and numeric coercion (`preprocess_scores`,
lines 103-120), the user-controlled sort / truncate / rerank step
(`df_sorted`, lines 192-193), the slider defaults (lines 170-179), the
spotlight card rendering (lines 219-243) and the load/render control flow
(lines 139-193).

Modelling conventions:
- a spreadsheet cell is either a numeric value or free text (`Cell`);
  the numeric domain of the pandas float columns is embedded as `ℚ`,
  with the missing-numeric sentinel (NaN) embedded as `none : Option ℚ`;
- `pd.to_numeric(..., errors="coerce")` becomes the total function
  `to_numeric : Cell → Option ℚ`;
- `DataFrame.sort_values(by=key, ascending=b)` becomes a deterministic
  comparison sort (realized by `List.insertionSort`) under the total
  preorder `rowLe key b`, whose comparator `keyLe` places `none` (NaN)
  last regardless of direction, matching the pandas default
  `na_position="last"`. Caveat: the call sites use the pandas default
  `kind="quicksort"`, which pandas documents as NOT stable, whereas
  `insertionSort` is stable; therefore no theorem below relies on tie
  order or on re-sorting being the identity — every proved property
  (sortedness, row multiset, length, prefix, rank positions) holds for
  any correct comparison sort;
- raised exceptions and `st.stop()` become the `.error` branch of
  `Except String`; a successful render pass is an `.ok` value carrying
  the complete set of display artifacts, so an `.error` result carries
  no table and no charts.
-/

namespace FactoryFrenzy

/-- A spreadsheet cell: either a numeric value or free text. -/
inductive Cell where
  | num (q : ℚ)
  | text (s : String)
deriving DecidableEq

/-- Accumulating digit parser over the characters of a text cell. -/
def parseNatAux : Nat → List Char → Option Nat
  | acc, [] => some acc
  | acc, c :: cs =>
    if c.isDigit then parseNatAux (acc * 10 + (c.toNat - 48)) cs else none

/-- Numeric parsing of a text cell: a nonempty all-digit string parses to
its value, anything else fails. (A restriction of the numeral grammar
accepted by `pd.to_numeric`; what matters for the pipeline is which cells
fail, e.g. `"N/A"`, and those fail here as well.) -/
def parseNumText (s : String) : Option ℚ :=
  match s.data with
  | [] => none
  | c :: cs => (parseNatAux 0 (c :: cs)).map (fun n => (n : ℚ))

/-- `pd.to_numeric(x, errors="coerce")` on one cell: numeric cells pass
through, text holding a plain number parses, any other text coerces to the
missing-numeric sentinel (NaN, embedded as `none`) instead of raising. -/
def to_numeric : Cell → Option ℚ
  | .num q => some q
  | .text s => parseNumText s

/-- One raw spreadsheet row, cells untouched (the six required columns). -/
structure RawRow where
  team : Cell
  reputation : Cell
  orders : Cell
  accuracy : Cell
  budget : Cell
  badges : Cell
deriving DecidableEq

/-- The raw table produced by `pd.read_excel`: the header row (column
names, used by validation) plus the data rows. The fields of a `RawRow`
are only meaningful for columns listed in `columns`; validation halts
before any cell is read when a required column is absent. -/
structure RawTable where
  columns : List String
  rows : List RawRow
deriving DecidableEq

/-- A normalized row: numeric columns coerced (`Option ℚ`, `none` = NaN),
`Team` and `Badges` opaque, plus the `Rank` column. -/
structure Row where
  team : Cell
  reputation : Option ℚ
  orders : Option ℚ
  accuracy : Option ℚ
  budget : Option ℚ
  badges : Cell
  rank : Nat
deriving DecidableEq

/-- `REQUIRED_COLUMNS` from app.py lines 94-101. -/
def REQUIRED_COLUMNS : List String :=
  [ "Team", "Reputation", "Orders", "Accuracy_%", "Budget_Left", "Badges"]

/-- Line 105: `missing = [c for c in REQUIRED_COLUMNS if c not in df.columns]`. -/
def missingColumns (df : RawTable) : List String :=
  REQUIRED_COLUMNS.filter (fun c => !(df.columns.contains c))

/-- Lines 107-110: the message passed to `st.error` when columns are missing. -/
def missingError (missing : List String) : String :=
  "Missing columns in Excel file: " ++ String.intercalate ", " missing ++
    ". Expected columns: " ++ String.intercalate ", " REQUIRED_COLUMNS

/-- Lines 115-116: numeric coercion of the four numeric columns of one row;
`Team` and `Badges` pass through untouched. The `Rank` column does not
exist yet; it is materialized by `setRanks` (line 119). -/
def coerceRow (r : RawRow) : Row :=
  { team := r.team
    reputation := to_numeric r.reputation
    orders := to_numeric r.orders
    accuracy := to_numeric r.accuracy
    budget := to_numeric r.budget
    badges := r.badges
    rank := 0 }

/-- Overwrite the `Rank` cell of a row. -/
def withRank (r : Row) (n : Nat) : Row :=
  { r with rank := n }

/-- Erase the `Rank` cell (used to compare tables up to ranking). -/
def clearRank (r : Row) : Row :=
  withRank r 0

/-- `df.reset_index(drop=True)` followed by `df["Rank"] = df.index + i`:
assign consecutive ranks starting at `i` by position. -/
def setRanksFrom : Nat → List Row → List Row
  | _, [] => []
  | i, r :: rs => withRank r i :: setRanksFrom (i + 1) rs

/-- Lines 119 and 193: `df["Rank"] = df.index + 1` after `reset_index(drop=True)`. -/
def setRanks (rows : List Row) : List Row :=
  setRanksFrom 1 rows

/-- The four sort keys offered by the `Sort by` selector (line 160). -/
inductive SortKey where
  | reputation
  | orders
  | accuracy
  | budget
deriving DecidableEq

/-- The numeric column of a row selected by a sort key. -/
def Row.get : SortKey → Row → Option ℚ
  | .reputation, r => r.reputation
  | .orders, r => r.orders
  | .accuracy, r => r.accuracy
  | .budget, r => r.budget

/-- The comparator realized by `sort_values(by=col, ascending=asc)` on one
numeric column with the pandas default `na_position="last"`: NaN (`none`)
compares after every number regardless of direction, NaN ties with NaN,
and numbers compare by `≤` or `≥` according to `asc`. -/
def keyLe (asc : Bool) : Option ℚ → Option ℚ → Bool
  | none, none => true
  | none, some _ => false
  | some _, none => true
  | some a, some b => if asc then decide (a ≤ b) else decide (b ≤ a)

/-- Row ordering under a sort key and direction. -/
def rowLe (k : SortKey) (asc : Bool) (a b : Row) : Prop :=
  keyLe asc (a.get k) (b.get k) = true

instance (k : SortKey) (asc : Bool) : DecidableRel (rowLe k asc) :=
  fun a b => inferInstanceAs (Decidable (keyLe asc (a.get k) (b.get k) = true))

/-- `df.sort_values(by=k, ascending=asc)`: a deterministic comparison sort
of the rows under `rowLe k asc` (NaN sorts last). The call sites use the
pandas default `kind="quicksort"`, which is documented as not stable, so
the order of rows with equal keys is an unguaranteed implementation
detail; this embedding realizes the sort with `List.insertionSort`, and no
theorem in this development uses its stability or its fixing of
already-sorted input — only sortedness, the row multiset, and lengths,
which any correct comparison sort provides. -/
def sort_values (k : SortKey) (asc : Bool) (rows : List Row) : List Row :=
  List.insertionSort (rowLe k asc) rows

/-- `preprocess_scores` (app.py lines 103-120): validate the required
columns (halting with the error message when any is missing), coerce the
four numeric columns, sort descending by `Reputation` and assign the
baseline 1-based `Rank` column. -/
def preprocess_scores (df : RawTable) : Except String (List Row) :=
  let missing := missingColumns df
  if missing ≠ [] then
    .error (missingError missing)
  else
    .ok (setRanks (sort_values .reputation false (df.rows.map coerceRow)))

/-- Lines 192-193: `df_sorted = df.sort_values(by=sort_option,
ascending=ascending).head(show_top_n).reset_index(drop=True);
df_sorted["Rank"] = df_sorted.index + 1`. -/
def buildView (rows : List Row) (k : SortKey) (asc : Bool) (topN : Nat) : List Row :=
  setRanks ((sort_values k asc rows).take topN)

/-- Line 171: `min_n = 1 if num_teams < 3 else 3`. -/
def min_n (num_teams : Nat) : Nat :=
  if num_teams < 3 then 1 else 3

/-- Line 172: `default_n = num_teams`. -/
def default_n (num_teams : Nat) : Nat :=
  num_teams

/-- `st.slider(label, lo, hi, value=v)`: the initial slider position is the
requested value clamped into the `[lo, hi]` range. -/
def sliderInit (lo hi v : Nat) : Nat :=
  max lo (min v hi)

/-- Lines 174-179: the initial value of the `Show top N teams` slider. -/
def show_top_n_init (num_teams : Nat) : Nat :=
  sliderInit (min_n num_teams) num_teams (default_n num_teams)

/-- Python `str(...)` of a team/badges cell. -/
def showCell : Cell → String
  | .num q => toString q
  | .text s => s

/-- Python `str(...)` of a float-column value: NaN prints as `"nan"`. -/
def pyShowNum : Option ℚ → String
  | none => "nan"
  | some q => toString q

/-- Python `int(...)` on a float value: truncation toward zero. -/
def pyInt (q : ℚ) : Int :=
  q.num.tdiv (q.den : Int)

/-- `crowns` (line 214). -/
def crowns : List String :=
  [ "🥇", "🥈", "🥉"]

/-- `accent_emojis` (line 215). -/
def accent_emojis : List String :=
  [ "🔥", "⚡", "💥"]

/-- The data-bearing text fragments of one spotlight card (the markdown of
lines 223-243), one field per interpolated piece of the template. -/
structure RankCard where
  rankLabel : String
  nameLine : String
  reputationText : String
  ordersText : String
  accuracyText : String
  budgetText : String
  badgesText : String
deriving DecidableEq

/-- Render the spotlight card of position `i` (lines 223-243):
`Rank {row['Rank']}`, `{crowns[i]} {row['Team']} {accent_emojis[i]}`,
`{row['Reputation']}`, `{int(row['Orders']) if not pd.isna(row['Orders'])
else '-'}`, `{row['Accuracy_%']}%`, `₹{int(row['Budget_Left']) if not
pd.isna(row['Budget_Left']) else '-'}`, `{row['Badges']}`. -/
def renderCard (i : Nat) (r : Row) : RankCard :=
  { rankLabel := "Rank " ++ toString r.rank
    nameLine := crowns.getD i "" ++ " " ++ showCell r.team ++ " " ++ accent_emojis.getD i ""
    reputationText := pyShowNum r.reputation
    ordersText :=
      match r.orders with
      | none => "-"
      | some q => toString (pyInt q)
    accuracyText := pyShowNum r.accuracy ++ "%"
    budgetText := "₹" ++
      (match r.budget with
       | none => "-"
       | some q => toString (pyInt q))
    badgesText := showCell r.badges }

/-- Lines 213-243: one card per row of `df_sorted.head(3)`, decorated by
position starting at index 0 (so the first card always gets the first
crown, however few rows exist). -/
def spotlightFrom : Nat → List Row → List RankCard
  | _, [] => []
  | i, r :: rs => renderCard i r :: spotlightFrom (i + 1) rs

/-- The top-3 spotlight of a view. -/
def spotlight (view : List Row) : List RankCard :=
  spotlightFrom 0 (view.take 3)

/-- Lines 263-271: the two chart series, `Team -> Reputation` and
`Team -> Accuracy_%`, in view order. -/
def repChart (view : List Row) : List (Cell × Option ℚ) :=
  view.map (fun r => (r.team, r.reputation))

/-- The accuracy chart series. -/
def accChart (view : List Row) : List (Cell × Option ℚ) :=
  view.map (fun r => (r.team, r.accuracy))

/-- The complete set of artifacts committed by one successful render pass. -/
structure RenderOutput where
  spotlightCards : List RankCard
  table : List Row
  reputationSeries : List (Cell × Option ℚ)
  accuracySeries : List (Cell × Option ℚ)
deriving DecidableEq

/-- The data source chosen in the sidebar (lines 132-153): either an
uploaded spreadsheet or the default `scores.xlsx`. The payload is the
outcome of `pd.read_excel` on that source: `.error` when the file is
malformed or unreadable (the raised exception), `.ok` with the raw table
otherwise. -/
inductive Source where
  | uploaded (parsed : Except String RawTable)
  | defaultFile (parsed : Except String RawTable)

/-- Line 149-151: the message shown when the default file cannot be loaded. -/
def couldNotLoadMsg : String :=
  "Could not load scores.xlsx. Make sure it exists in the same folder as app.py and has the right columns."

/-- Lines 139-153: choose the dataframe. The uploaded branch runs
`pd.read_excel(uploaded_file)` then `preprocess_scores` with no handler, so
a parse failure propagates and terminates the run; the default branch wraps
loading in try/except and halts with `couldNotLoadMsg` on any failure. -/
def loadTable : Source → Except String (List Row)
  | .uploaded (.error e) => .error e
  | .uploaded (.ok raw) => preprocess_scores raw
  | .defaultFile parsed =>
    match parsed.bind preprocess_scores with
    | .error _ => .error couldNotLoadMsg
    | .ok t => .ok t

/-- Line 167: the message shown when the table has no rows. -/
def noTeamsMsg : String :=
  "No teams found in the data. Please check your scores.xlsx file."

/-- One full render pass (load → validate → empty check → view → present):
the pass either halts with an error before committing any artifact, or
returns the complete `RenderOutput`. `topN` is the slider value. -/
def runApp (src : Source) (k : SortKey) (asc : Bool) (topN : Nat) :
    Except String RenderOutput :=
  match loadTable src with
  | .error e => .error e
  | .ok rows =>
    if rows.length = 0 then
      .error noTeamsMsg
    else
      let view := buildView rows k asc topN
      .ok
        { spotlightCards := spotlight view
          table := view
          reputationSeries := repChart view
          accuracySeries := accChart view }

/-! ### Basic lemmas about rank assignment and the sort comparator -/

theorem get_withRank (k : SortKey) (r : Row) (n : Nat) :
    Row.get k (withRank r n) = Row.get k r := by
  cases k <;> rfl

theorem clearRank_coerceRow (r : RawRow) : clearRank (coerceRow r) = coerceRow r := rfl

theorem length_setRanksFrom : ∀ (i : Nat) (l : List Row),
    (setRanksFrom i l).length = l.length
  | _, [] => rfl
  | i, r :: rs => by simp [setRanksFrom, length_setRanksFrom]

theorem map_setRanksFrom {β : Type} (f : Row → β)
    (hf : ∀ r n, f (withRank r n) = f r) :
    ∀ (i : Nat) (l : List Row), (setRanksFrom i l).map f = l.map f
  | _, [] => rfl
  | i, r :: rs => by simp [setRanksFrom, hf, map_setRanksFrom f hf]

theorem rank_setRanksFrom : ∀ (i : Nat) (l : List Row),
    (setRanksFrom i l).map Row.rank = List.range' i l.length
  | _, [] => rfl
  | i, r :: rs => by
    simp [setRanksFrom, List.range', rank_setRanksFrom, withRank]

theorem take_setRanksFrom : ∀ (n i : Nat) (l : List Row),
    (setRanksFrom i l).take n = setRanksFrom i (l.take n)
  | 0, _, _ => by simp [setRanksFrom]
  | n + 1, _, [] => rfl
  | n + 1, i, r :: rs => by
    simp [setRanksFrom, take_setRanksFrom n]

theorem keyLe_total (asc : Bool) (x y : Option ℚ) :
    keyLe asc x y = true ∨ keyLe asc y x = true := by
  match x, y with
  | none, none => exact Or.inl rfl
  | none, some b => exact Or.inr rfl
  | some a, none => exact Or.inl rfl
  | some a, some b =>
    rcases le_total a b with h | h
    · cases asc
      · exact Or.inr (by simp [keyLe, h])
      · exact Or.inl (by simp [keyLe, h])
    · cases asc
      · exact Or.inl (by simp [keyLe, h])
      · exact Or.inr (by simp [keyLe, h])

theorem keyLe_trans {asc : Bool} {x y z : Option ℚ}
    (h1 : keyLe asc x y = true) (h2 : keyLe asc y z = true) :
    keyLe asc x z = true := by
  match x, y, z with
  | none, _, none => rfl
  | some a, _, none => rfl
  | none, none, some c => exact absurd h2 (by simp [keyLe])
  | none, some b, some c => exact absurd h1 (by simp [keyLe])
  | some a, none, some c => exact absurd h2 (by simp [keyLe])
  | some a, some b, some c =>
    cases asc with
    | false =>
      simp [keyLe] at h1 h2 ⊢
      exact le_trans h2 h1
    | true =>
      simp [keyLe] at h1 h2 ⊢
      exact le_trans h1 h2

theorem keyLe_none_left {asc : Bool} {y : Option ℚ}
    (h : keyLe asc none y = true) : y = none := by
  cases y with
  | none => rfl
  | some c => exact absurd h (by simp [keyLe])

instance (k : SortKey) (asc : Bool) : IsTotal Row (rowLe k asc) :=
  ⟨fun a b => keyLe_total asc (a.get k) (b.get k)⟩

instance (k : SortKey) (asc : Bool) : IsTrans Row (rowLe k asc) :=
  ⟨fun _ _ _ h1 h2 => keyLe_trans h1 h2⟩

/-! ### Lemmas about the pipeline stages -/

theorem sorted_sort_values (k : SortKey) (asc : Bool) (rows : List Row) :
    List.Sorted (rowLe k asc) (sort_values k asc rows) :=
  List.sorted_insertionSort (rowLe k asc) rows

theorem perm_sort_values (k : SortKey) (asc : Bool) (rows : List Row) :
    (sort_values k asc rows).Perm rows :=
  List.perm_insertionSort (rowLe k asc) rows

theorem length_sort_values (k : SortKey) (asc : Bool) (rows : List Row) :
    (sort_values k asc rows).length = rows.length :=
  (perm_sort_values k asc rows).length_eq

theorem preprocess_ok {df : RawTable} (h : missingColumns df = []) :
    preprocess_scores df =
      .ok (setRanks (sort_values .reputation false (df.rows.map coerceRow))) := by
  simp [preprocess_scores, h]

theorem preprocess_error {df : RawTable} (h : missingColumns df ≠ []) :
    preprocess_scores df = .error (missingError (missingColumns df)) := by
  simp [preprocess_scores, h]

theorem map_clearRank_sorted_coerced (df : RawTable) :
    (sort_values .reputation false (df.rows.map coerceRow)).map clearRank =
      sort_values .reputation false (df.rows.map coerceRow) := by
  have h : ∀ x ∈ sort_values .reputation false (df.rows.map coerceRow),
      clearRank x = x := by
    intro x hx
    have hx2 : x ∈ df.rows.map coerceRow :=
      (perm_sort_values .reputation false (df.rows.map coerceRow)).mem_iff.mp hx
    rcases List.mem_map.mp hx2 with ⟨r, _, rfl⟩
    exact clearRank_coerceRow r
  calc (sort_values .reputation false (df.rows.map coerceRow)).map clearRank
      = (sort_values .reputation false (df.rows.map coerceRow)).map id :=
        List.map_congr_left h
    _ = sort_values .reputation false (df.rows.map coerceRow) := List.map_id _

theorem map_clearRank_setRanks (l : List Row) :
    (setRanks l).map clearRank = l.map clearRank :=
  map_setRanksFrom clearRank (fun _ _ => rfl) 1 l

theorem length_buildView (rows : List Row) (k : SortKey) (asc : Bool) (n : Nat) :
    (buildView rows k asc n).length = min n rows.length := by
  unfold buildView setRanks
  rw [length_setRanksFrom, List.length_take, length_sort_values]

/-! ### Claim C2 -/

/-- A raw table whose header lacks the Orders and Badges columns. -/
def c2Table : RawTable :=
  { columns := [ "Team", "Reputation", "Accuracy_%", "Budget_Left"]
    rows := [] }

/-- Claim C2: for every raw table missing at least one required column,
normalization halts with an error naming exactly the set of missing
columns (and the expected columns), producing no table: the result is the
`.error` carrying the message built from the missing set, and membership
in that set characterizes exactly the required columns absent from the
header. -/
theorem missing_columns_halt_with_exact_set (df : RawTable)
    (h : missingColumns df ≠ []) :
    preprocess_scores df = .error (missingError (missingColumns df)) ∧
    ∀ c, c ∈ missingColumns df ↔ (c ∈ REQUIRED_COLUMNS ∧ c ∉ df.columns) := by
  refine ⟨preprocess_error h, ?_⟩
  intro c
  simp [missingColumns, List.mem_filter, List.contains]

/-- Witness for C2 at a table missing Orders and Badges: the missing set is
nonempty, the pipeline halts with the exact message, and the general
theorem applies. -/
theorem missing_columns_halt_with_exact_set_witness :
    missingColumns c2Table ≠ [] ∧
    missingColumns c2Table = [ "Orders", "Badges"] ∧
    preprocess_scores c2Table =
      .error "Missing columns in Excel file: Orders, Badges. Expected columns: Team, Reputation, Orders, Accuracy_%, Budget_Left, Badges" ∧
    preprocess_scores c2Table = .error (missingError (missingColumns c2Table)) := by
  refine ⟨by decide, by decide, rfl, ?_⟩
  exact (missing_columns_halt_with_exact_set c2Table (by decide)).1

/-! ### Claim C3 -/

/-- Scenario rows of claim C3: accuracy values 90, 70, missing. -/
def c3Rows : List Row :=
  [ { team := .text "X", reputation := some 1, orders := some 1,
      accuracy := some 90, budget := some 1, badges := .text "a", rank := 1 },
    { team := .text "Y", reputation := some 2, orders := some 2,
      accuracy := some 70, budget := some 2, badges := .text "b", rank := 2 },
    { team := .text "Z", reputation := some 3, orders := some 3,
      accuracy := none, budget := some 3, badges := .text "c", rank := 3 } ]

/-- Claim C3: for every sort key, both directions and every truncation,
rows whose sort-key value is missing appear only as the last rows of the
view (once a missing value occurs, every later row is missing too — so the
placement at the end is not inverted by the ascending direction); and the
scenario: ascending sort by accuracy over values 90, 70, missing yields
70, 90, missing. -/
theorem missing_values_sort_last_both_directions :
    (∀ (rows : List Row) (k : SortKey) (asc : Bool) (n : Nat),
      ((buildView rows k asc n).map (Row.get k)).Pairwise
        (fun x y => x = none → y = none)) ∧
    (buildView c3Rows .accuracy true 3).map (Row.get .accuracy) =
      [some 70, some 90, none] := by
  constructor
  · intro rows k asc n
    have hs : List.Sorted (rowLe k asc) (sort_values k asc rows) :=
      sorted_sort_values k asc rows
    have ht : ((sort_values k asc rows).take n).Pairwise (rowLe k asc) :=
      List.Pairwise.sublist (List.take_sublist n _) hs
    have hm : ((buildView rows k asc n).map (Row.get k)).Pairwise
        (fun x y => keyLe asc x y = true) := by
      unfold buildView setRanks
      rw [map_setRanksFrom (Row.get k) (fun r n => get_withRank k r n)]
      exact List.pairwise_map.mpr ht
    refine hm.imp ?_
    intro x y hxy hx
    subst hx
    exact keyLe_none_left hxy
  · rfl

/-! ### Claim C4 -/

/-- Claim C4: for every table, sort key, direction and topN, the view has
exactly min(topN, rowCount) rows and is a prefix of the fully sorted view
(the view truncated at the full row count): nothing is dropped from the
middle of the sort order. -/
theorem view_has_min_rows_and_extends_to_full_sort :
    ∀ (rows : List Row) (k : SortKey) (asc : Bool) (n : Nat),
      (buildView rows k asc n).length = min n rows.length ∧
      buildView rows k asc n = (buildView rows k asc rows.length).take n ∧
      ∃ rest, buildView rows k asc n ++ rest = buildView rows k asc rows.length := by
  intro rows k asc n
  have hfull : buildView rows k asc rows.length =
      setRanks (sort_values k asc rows) := by
    unfold buildView
    rw [List.take_of_length_le (le_of_eq (length_sort_values k asc rows))]
  have htake : buildView rows k asc n =
      (buildView rows k asc rows.length).take n := by
    rw [hfull]
    unfold buildView setRanks
    rw [take_setRanksFrom]
  refine ⟨length_buildView rows k asc n, htake, ?_⟩
  rw [htake]
  exact ⟨(buildView rows k asc rows.length).drop n, List.take_append_drop n _⟩

/-! ### Claim C5 -/

/-- Scenario table of claim C5: team E has the non-numeric Reputation
cell N/A. -/
def c5Table : RawTable :=
  { columns := REQUIRED_COLUMNS
    rows :=
      [ { team := .text "D", reputation := .num 90, orders := .num 5,
          accuracy := .num 99, budget := .num 10, badges := .text "d" },
        { team := .text "E", reputation := .text "N/A", orders := .num 6,
          accuracy := .num 98, budget := .num 20, badges := .text "e" },
        { team := .text "F", reputation := .num 95, orders := .num 7,
          accuracy := .num 97, budget := .num 30, badges := .text "f" } ] }

/-- The table `preprocess_scores` produces on `c5Table`: the N/A row is
retained, becomes missing-numeric, and sorts last. -/
def c5Expected : List Row :=
  [ { team := .text "F", reputation := some 95, orders := some 7,
      accuracy := some 97, budget := some 30, badges := .text "f", rank := 1 },
    { team := .text "D", reputation := some 90, orders := some 5,
      accuracy := some 99, budget := some 10, badges := .text "d", rank := 2 },
    { team := .text "E", reputation := none, orders := some 6,
      accuracy := some 98, budget := some 20, badges := .text "e", rank := 3 } ]

/-- Claim C5: on every valid table, normalization never halts on cell
contents: it returns a table with exactly one output row per input row
(each input row retained, ranks aside, as its cellwise coercion, where
failed cells became the missing sentinel), and rows whose Reputation is
missing are placed after all rows with a numeric Reputation by the
baseline descending sort. -/
theorem coercion_failure_keeps_row_and_never_halts (df : RawTable)
    (h : missingColumns df = []) :
    ∃ t, preprocess_scores df = .ok t ∧
      t.length = df.rows.length ∧
      (t.map clearRank).Perm (df.rows.map coerceRow) ∧
      (t.map (Row.get .reputation)).Pairwise (fun x y => x = none → y = none) := by
  refine ⟨_, preprocess_ok h, ?_, ?_, ?_⟩
  · unfold setRanks
    rw [length_setRanksFrom, length_sort_values, List.length_map]
  · rw [map_clearRank_setRanks, map_clearRank_sorted_coerced]
    exact perm_sort_values _ _ _
  · have hs : List.Sorted (rowLe .reputation false)
        (sort_values .reputation false (df.rows.map coerceRow)) :=
      sorted_sort_values .reputation false (df.rows.map coerceRow)
    have hm : ((setRanks (sort_values .reputation false (df.rows.map coerceRow))).map
        (Row.get .reputation)).Pairwise (fun x y => keyLe false x y = true) := by
      unfold setRanks
      rw [map_setRanksFrom (Row.get .reputation) (fun r n => get_withRank _ r n)]
      exact List.pairwise_map.mpr hs
    refine hm.imp ?_
    intro x y hxy hx
    subst hx
    exact keyLe_none_left hxy

/-- Witness for C5 at the scenario table: the N/A cell coerces to the
missing sentinel, the concrete pipeline output keeps the row and ranks it
last, and the general theorem applies. -/
theorem coercion_failure_keeps_row_and_never_halts_witness :
    to_numeric (.text "N/A") = none ∧
    preprocess_scores c5Table = .ok c5Expected ∧
    (preprocess_scores c5Table).toOption.map List.length = some 3 := by
  refine ⟨rfl, rfl, ?_⟩
  obtain ⟨t, h1, h2, _, _⟩ :=
    coercion_failure_keeps_row_and_never_halts c5Table rfl
  rw [h1]
  simp only [Except.toOption, Option.map]
  rw [h2]
  rfl

/-! ### Claim C6 -/

/-- Claim C6: for every view, the Rank column is exactly the 1-based
contiguous position inside the truncated sorted sequence — the ranks read
1..k for the k = min(topN, rowCount) rows of the view, whatever ranks the
input rows carried (so the baseline rank is overwritten). -/
theorem view_rank_is_recomputed_contiguous :
    ∀ (rows : List Row) (k : SortKey) (asc : Bool) (n : Nat),
      (buildView rows k asc n).map Row.rank =
        List.range' 1 (min n rows.length) := by
  intro rows k asc n
  unfold buildView setRanks
  rw [rank_setRanksFrom, List.length_take, length_sort_values]

/-! ### Claim C8 -/

/-- A row all of whose numeric cells are missing. -/
def c8Row : Row :=
  { team := .text "Ghost", reputation := none, orders := none,
    accuracy := none, budget := none, badges := .text "g", rank := 1 }

/-- Counterexample to claim C8: on a row whose Reputation and Accuracy
cells are missing, the spotlight card renders the raw NaN text, not a dash
placeholder — only the Orders and Budget cells get the dash. So it is
false that every missing-numeric cell (including Reputation and
Accuracy_%) is displayed as an explicit placeholder such as a dash. -/
theorem missing_cells_placeholder_counterexample :
    (renderCard 0 c8Row).reputationText = "nan" ∧
    (renderCard 0 c8Row).accuracyText = "nan%" ∧
    (renderCard 0 c8Row).ordersText = "-" ∧
    (renderCard 0 c8Row).budgetText = "₹-" ∧
    (renderCard 0 c8Row).reputationText ≠ "-" ∧
    (renderCard 0 c8Row).accuracyText ≠ "-" := by
  refine ⟨rfl, rfl, rfl, rfl, ?_, ?_⟩ <;> decide

/-- A row in which only the Orders cell is missing. -/
def c8PartialRow : Row :=
  { team := .text "Half", reputation := some 55, orders := none,
    accuracy := some 65, budget := some 75, badges := .text "h", rank := 2 }

/-- Claim C8 as amended, per cell: on every rendered spotlight card, each
of the four numeric cells independently — a missing Orders or Budget_Left
cell is displayed as a dash placeholder, while a missing Reputation or
Accuracy_% cell is displayed as the raw NaN text (nan, nan%); in every
case the display is never zero and never blank, but for Reputation and
Accuracy_% it is not a dash placeholder either. -/
theorem missing_cells_placeholder_amended (r : Row) (i : Nat) :
    (r.orders = none →
      (renderCard i r).ordersText = "-" ∧
      (renderCard i r).ordersText ≠ "0" ∧
      (renderCard i r).ordersText ≠ "") ∧
    (r.budget = none →
      (renderCard i r).budgetText = "₹-" ∧
      (renderCard i r).budgetText ≠ "0" ∧
      (renderCard i r).budgetText ≠ "") ∧
    (r.reputation = none →
      (renderCard i r).reputationText = "nan" ∧
      (renderCard i r).reputationText ≠ "0" ∧
      (renderCard i r).reputationText ≠ "" ∧
      (renderCard i r).reputationText ≠ "-") ∧
    (r.accuracy = none →
      (renderCard i r).accuracyText = "nan%" ∧
      (renderCard i r).accuracyText ≠ "0" ∧
      (renderCard i r).accuracyText ≠ "" ∧
      (renderCard i r).accuracyText ≠ "-") := by
  refine ⟨?_, ?_, ?_, ?_⟩
  · intro ho
    have e : (renderCard i r).ordersText = "-" := by simp [renderCard, ho]
    refine ⟨e, ?_, ?_⟩ <;> rw [e] <;> decide
  · intro hb
    have e : (renderCard i r).budgetText = "₹-" := by simp [renderCard, hb]
    refine ⟨e, ?_, ?_⟩ <;> rw [e] <;> decide
  · intro hrep
    have e : (renderCard i r).reputationText = "nan" := by
      simp [renderCard, hrep, pyShowNum]
    refine ⟨e, ?_, ?_, ?_⟩ <;> rw [e] <;> decide
  · intro hacc
    have e : (renderCard i r).accuracyText = "nan%" := by
      simp [renderCard, hacc, pyShowNum]
    refine ⟨e, ?_, ?_, ?_⟩ <;> rw [e] <;> decide

/-- Witness for the amended C8 at two concrete cards: the all-missing row
(raw NaN text for Reputation, dash for Budget_Left) and a row in which
only Orders is missing (dash for Orders while the other cells are
present). -/
theorem missing_cells_placeholder_amended_witness :
    c8Row.reputation = none ∧
    (renderCard 0 c8Row).reputationText = "nan" ∧
    (renderCard 0 c8Row).budgetText = "₹-" ∧
    c8PartialRow.orders = none ∧
    (renderCard 1 c8PartialRow).ordersText = "-" := by
  refine ⟨rfl, ?_, ?_, rfl, ?_⟩
  · exact ((missing_cells_placeholder_amended c8Row 0).2.2.1 rfl).1
  · exact ((missing_cells_placeholder_amended c8Row 0).2.1 rfl).1
  · exact ((missing_cells_placeholder_amended c8PartialRow 1).1 rfl).1

/-! ### Claim C9 -/

/-- Claim C9: for every malformed uploaded spreadsheet (the parse step of
the uploaded branch fails), the whole render pass halts with that parse
error: the run returns the `.error` outcome, which carries no spotlight
cards, no table and no charts — no partial UI artifact exists. -/
theorem malformed_upload_halts_render (e : String) (k : SortKey)
    (asc : Bool) (n : Nat) :
    runApp (.uploaded (.error e)) k asc n = .error e ∧
    ∀ out : RenderOutput, runApp (.uploaded (.error e)) k asc n ≠ .ok out := by
  refine ⟨rfl, ?_⟩
  intro out h
  exact Except.noConfusion h

/-! ### Claim C10 -/

/-- Two concrete rows for the C10 witness. -/
def c10Rows : List Row :=
  [ { team := .text "P", reputation := some 4, orders := some 8,
      accuracy := some 50, budget := some 40, badges := .text "p", rank := 1 },
    { team := .text "Q", reputation := some 6, orders := some 9,
      accuracy := some 60, budget := some 70, badges := .text "q", rank := 2 } ]

/-- Claim C10: for every non-empty table, the initial value of the top-N
slider equals the row count, and the first view built with that value
contains every row of the table (same length, and the same rows up to the
recomputed Rank column). -/
theorem initial_topN_is_row_count_shows_all (rows : List Row) (k : SortKey)
    (asc : Bool) (h : rows ≠ []) :
    show_top_n_init rows.length = rows.length ∧
    (buildView rows k asc (show_top_n_init rows.length)).length = rows.length ∧
    ((buildView rows k asc (show_top_n_init rows.length)).map clearRank).Perm
      (rows.map clearRank) := by
  have hpos : 0 < rows.length := List.length_pos.mpr h
  have hmin : min_n rows.length ≤ rows.length := by
    unfold min_n
    split <;> omega
  have hinit : show_top_n_init rows.length = rows.length := by
    unfold show_top_n_init sliderInit default_n
    rw [Nat.min_self]
    exact Nat.max_eq_right hmin
  refine ⟨hinit, ?_, ?_⟩
  · rw [hinit, length_buildView, Nat.min_self]
  · rw [hinit]
    unfold buildView
    rw [List.take_of_length_le (le_of_eq (length_sort_values k asc rows)),
      map_clearRank_setRanks]
    exact (perm_sort_values k asc rows).map clearRank

/-- Witness for C10 at a two-row table: the slider starts at 2 and the
initial view has both rows. -/
theorem initial_topN_is_row_count_shows_all_witness :
    c10Rows ≠ [] ∧
    show_top_n_init c10Rows.length = c10Rows.length ∧
    (buildView c10Rows .orders true (show_top_n_init c10Rows.length)).length =
      c10Rows.length := by
  have h : c10Rows ≠ [] := by decide
  exact ⟨h, (initial_topN_is_row_count_shows_all c10Rows .orders true h).1,
    (initial_topN_is_row_count_shows_all c10Rows .orders true h).2.1⟩

end FactoryFrenzy
